import Mathlib

/-!
Verification of `samcli/lib/sync/sync_flow_factory.py` (aws-sam-cli).

The file is a shallow embedding of the sync-flow factory: the data model
(resources, property bags, the factory state), the per-kind handler
functions, the handler table, and the public operations
`load_physical_id_mapping` and `create_sync_flow`, followed by theorems
settling the claims about them.

Python dictionaries of template properties are embedded as association
lists of JSON-like values; Python truthiness and Python `==` against a
string literal are embedded explicitly.  Methods that assign to `self`
fields return an updated factory record; methods whose bodies contain no
field assignment return results only (`create_sync_flow` is additionally
given a state-passing form returning the factory, to state frame
properties).  `LOG.warning` calls are embedded as emitted warning records
carrying the message template and the interpolated resource identifier.
-/

namespace SamSync

/-- JSON-like values of a CloudFormation/SAM template property bag
(the Python side types these as `Any`). -/
inductive JsonValue where
  | null
  | bool (b : Bool)
  | str (s : String)
  | num (n : Int)
  | arr (elems : List JsonValue)
  | obj (fields : List (String × JsonValue))

/-- Python truthiness of a value: `None`, `False`, `0`, `""`, `[]` and
`{}` are falsy, everything else is truthy. -/
def JsonValue.truthy : JsonValue → Bool
  | .null => false
  | .bool b => b
  | .str s => !s.isEmpty
  | .num n => n != 0
  | .arr elems => !elems.isEmpty
  | .obj fields => !fields.isEmpty

/-- Python equality of an arbitrary value against a string literal:
only a string compares equal to a string. -/
def JsonValue.eqStr : JsonValue → String → Bool
  | .str s, t => s == t
  | _, _ => false

/-- The constant `ZIP` from `samcli.lib.utils.packagetype`. -/
def ZIP : String := "Zip"

/-- The constant `IMAGE` from `samcli.lib.utils.packagetype`. -/
def IMAGE : String := "Image"

/-- Resource-kind constant from `samcli.lib.utils.resources`. -/
def AWS_SERVERLESS_FUNCTION : String := "AWS::Serverless::Function"

/-- Resource-kind constant from `samcli.lib.utils.resources`. -/
def AWS_LAMBDA_FUNCTION : String := "AWS::Lambda::Function"

/-- Resource-kind constant from `samcli.lib.utils.resources`. -/
def AWS_SERVERLESS_LAYERVERSION : String := "AWS::Serverless::LayerVersion"

/-- Resource-kind constant from `samcli.lib.utils.resources`. -/
def AWS_LAMBDA_LAYERVERSION : String := "AWS::Lambda::LayerVersion"

/-- Resource-kind constant from `samcli.lib.utils.resources`. -/
def AWS_SERVERLESS_API : String := "AWS::Serverless::Api"

/-- Resource-kind constant from `samcli.lib.utils.resources`. -/
def AWS_APIGATEWAY_RESTAPI : String := "AWS::ApiGateway::RestApi"

/-- Resource-kind constant from `samcli.lib.utils.resources`. -/
def AWS_SERVERLESS_HTTPAPI : String := "AWS::Serverless::HttpApi"

/-- Resource-kind constant from `samcli.lib.utils.resources`. -/
def AWS_APIGATEWAY_V2_API : String := "AWS::ApiGatewayV2::Api"

/-- Resource-kind constant from `samcli.lib.utils.resources`. -/
def AWS_SERVERLESS_STATEMACHINE : String := "AWS::Serverless::StateMachine"

/-- Resource-kind constant from `samcli.lib.utils.resources`. -/
def AWS_STEPFUNCTIONS_STATEMACHINE : String := "AWS::StepFunctions::StateMachine"

/-- A property bag: mapping from property name to value, embedded as an
association list (template property names are unique keys). -/
def Properties := List (String × JsonValue)

/-- Python `d.get(key, default)` on a property bag. -/
def Properties.get (props : Properties) (key : String) (default : JsonValue) : JsonValue :=
  match List.lookup key props with
  | some v => v
  | none => default

/-- Python `d.get(key)` (default `None`) returning an `Option` so that a
missing key is distinguishable from a key held at `null`. -/
def Properties.find (props : Properties) (key : String) : Option JsonValue :=
  List.lookup key props

/-- A template resource declaration: a resource-kind tag plus an optional
property bag (`properties = none` embeds a declaration with no
`Properties` key, read back through `resource.get("Properties", dict())`). -/
structure Resource where
  resourceType : String
  properties : Option Properties

/-- Python `resource.get("Properties", dict())`. -/
def Resource.propertiesOrEmpty (r : Resource) : Properties :=
  match r.properties with
  | some props => props
  | none => ([] : List (String × JsonValue))

/-- BuildContext is an external collaborator; the factory only stores and
forwards a reference to it, so it is embedded as an opaque token. -/
structure BuildContext where
  token : Nat
  deriving DecidableEq

/-- DeployContext: the factory forwards it to every constructed flow and
reads its `region` and `stack_name` in `load_physical_id_mapping`. -/
structure DeployContext where
  region : Option String
  stack_name : String
  deriving DecidableEq

/-- Modelled from the spec: a stack of the Resource Store holds resource
declarations addressable by logical identifier (the Resource Store is an
external collaborator; only its `getResourceByIdentifier` lookup is
consumed by this core). -/
structure Stack where
  resources : List (String × Resource)

/-- Modelled from the spec: `getResourceByIdentifier(stacks, identifier)
-> Resource | absent` (`get_resource_by_id` of
`samcli.lib.providers.provider`, not part of this core): returns the
declaration of the first resource matching the identifier across the
stack collection, or absence. -/
def get_resource_by_id (stack_collection : List Stack) (resource_identifier : String) : Option Resource :=
  match stack_collection with
  | [] => none
  | stack :: rest =>
    match List.lookup resource_identifier stack.resources with
    | some r => some r
    | none => get_resource_by_id rest resource_identifier

/-- The five constructor arguments every sync flow receives:
`str(resource_identifier)`, the build context, the deploy context, the
physical-id mapping, and the stack collection. -/
structure SyncFlowArgs where
  resource_id : String
  build_context : BuildContext
  deploy_context : DeployContext
  physical_id_mapping : List (String × String)
  _stacks : List Stack

/-- A constructed synchronization unit: one variant per concrete SyncFlow
class, each capturing its constructor arguments (the classes themselves
are external collaborators; only their construction is in scope). -/
inductive SyncFlow where
  | autoDependencyLayerParent (args : SyncFlowArgs)
  | zipFunction (args : SyncFlowArgs)
  | imageFunction (args : SyncFlowArgs)
  | layer (args : SyncFlowArgs)
  | restApi (args : SyncFlowArgs)
  | httpApi (args : SyncFlowArgs)
  | stepFunctions (args : SyncFlowArgs)

/-- The constructor arguments captured by a constructed flow. -/
def SyncFlow.args : SyncFlow → SyncFlowArgs
  | .autoDependencyLayerParent a => a
  | .zipFunction a => a
  | .imageFunction a => a
  | .layer a => a
  | .restApi a => a
  | .httpApi a => a
  | .stepFunctions a => a

/-- A `LOG.warning(template, arg)` call: the message template together
with the resource identifier interpolated for `%s`. -/
structure LogWarning where
  message : String
  resource_arg : String
  deriving DecidableEq

/-- The warning message template of `_create_stepfunctions_flow`. -/
def stepFunctionsWarningMessage : String :=
  "DefinitionSubstitutions property is specified in resource %s. Skipping this resource. Code sync for StepFunctions does not go through CFN, please run sam sync --infra to update."

/-- The state of a `SyncFlowFactory` as set up by `__init__` (with
`physical_id_mapping` initially empty, see `SyncFlowFactory.init`). -/
structure SyncFlowFactory where
  build_context : BuildContext
  deploy_context : DeployContext
  _stacks : List Stack
  auto_dependency_layer : Bool
  physical_id_mapping : List (String × String)

/-- `SyncFlowFactory.__init__`: stores the four arguments and starts with
an empty physical-id mapping (`self._physical_id_mapping = dict()`). -/
def SyncFlowFactory.init (build_context : BuildContext) (deploy_context : DeployContext)
    (stack_collection : List Stack) (auto_dependency_layer : Bool) : SyncFlowFactory :=
  { build_context := build_context
    deploy_context := deploy_context
    _stacks := stack_collection
    auto_dependency_layer := auto_dependency_layer
    physical_id_mapping := [] }

/-- The Remote Identifier Lookup collaborator: the composite of
`get_boto_resource_provider_with_config` and `get_physical_id_mapping`,
taking the optional region and the stack name and returning the mapping
from logical to physical identifiers. -/
def RemoteLookup := Option String → String → List (String × String)

/-- The provider-config argument
`self._deploy_context.region if self._deploy_context.region else None`
of `load_physical_id_mapping`: the deploy context's region when truthy,
`None` otherwise. -/
def SyncFlowFactory.region_name_arg (self : SyncFlowFactory) : Option String :=
  match self.deploy_context.region with
  | some r => if r.isEmpty then none else some r
  | none => none

/-- `SyncFlowFactory.load_physical_id_mapping`: queries the remote lookup
with `region if region else None` and `stack_name`, and rebinds
`self._physical_id_mapping` to the freshly returned mapping. -/
def SyncFlowFactory.load_physical_id_mapping (lookup : RemoteLookup)
    (self : SyncFlowFactory) : SyncFlowFactory :=
  { self with
    physical_id_mapping :=
      lookup self.region_name_arg self.deploy_context.stack_name }

/-- `SyncFlowFactory._create_lambda_flow`: branches on the resource's
`PackageType` property (default `ZIP`); `ZIP` yields the
auto-dependency-layer parent flow when that mode is on and the zip
function flow otherwise, `IMAGE` yields the image function flow, and any
other value yields `None`. -/
def SyncFlowFactory._create_lambda_flow (self : SyncFlowFactory)
    (resource_identifier : String) (resource : Resource) :
    Option SyncFlow × List LogWarning :=
  let package_type := (Resource.propertiesOrEmpty resource).get "PackageType" (.str ZIP)
  if package_type.eqStr ZIP then
    if self.auto_dependency_layer then
      (some (.autoDependencyLayerParent
        { resource_id := resource_identifier
          build_context := self.build_context
          deploy_context := self.deploy_context
          physical_id_mapping := self.physical_id_mapping
          _stacks := self._stacks }), [])
    else
      (some (.zipFunction
        { resource_id := resource_identifier
          build_context := self.build_context
          deploy_context := self.deploy_context
          physical_id_mapping := self.physical_id_mapping
          _stacks := self._stacks }), [])
  else if package_type.eqStr IMAGE then
    (some (.imageFunction
      { resource_id := resource_identifier
        build_context := self.build_context
        deploy_context := self.deploy_context
        physical_id_mapping := self.physical_id_mapping
        _stacks := self._stacks }), [])
  else
    (none, [])

/-- `SyncFlowFactory._create_layer_flow`: always constructs the layer
flow. -/
def SyncFlowFactory._create_layer_flow (self : SyncFlowFactory)
    (resource_identifier : String) (_resource : Resource) :
    Option SyncFlow × List LogWarning :=
  (some (.layer
    { resource_id := resource_identifier
      build_context := self.build_context
      deploy_context := self.deploy_context
      physical_id_mapping := self.physical_id_mapping
      _stacks := self._stacks }), [])

/-- `SyncFlowFactory._create_rest_api_flow`: always constructs the REST
API flow. -/
def SyncFlowFactory._create_rest_api_flow (self : SyncFlowFactory)
    (resource_identifier : String) (_resource : Resource) :
    Option SyncFlow × List LogWarning :=
  (some (.restApi
    { resource_id := resource_identifier
      build_context := self.build_context
      deploy_context := self.deploy_context
      physical_id_mapping := self.physical_id_mapping
      _stacks := self._stacks }), [])

/-- `SyncFlowFactory._create_api_flow`: always constructs the HTTP API
flow. -/
def SyncFlowFactory._create_api_flow (self : SyncFlowFactory)
    (resource_identifier : String) (_resource : Resource) :
    Option SyncFlow × List LogWarning :=
  (some (.httpApi
    { resource_id := resource_identifier
      build_context := self.build_context
      deploy_context := self.deploy_context
      physical_id_mapping := self.physical_id_mapping
      _stacks := self._stacks }), [])

/-- `SyncFlowFactory._create_stepfunctions_flow`: skips (with one
warning naming the resource) when `DefinitionSubstitutions` is truthy,
and constructs the Step Functions flow otherwise. -/
def SyncFlowFactory._create_stepfunctions_flow (self : SyncFlowFactory)
    (resource_identifier : String) (resource : Resource) :
    Option SyncFlow × List LogWarning :=
  let definition_substitutions :=
    (Resource.propertiesOrEmpty resource).get "DefinitionSubstitutions" .null
  if definition_substitutions.truthy then
    (none, [{ message := stepFunctionsWarningMessage, resource_arg := resource_identifier }])
  else
    (some (.stepFunctions
      { resource_id := resource_identifier
        build_context := self.build_context
        deploy_context := self.deploy_context
        physical_id_mapping := self.physical_id_mapping
        _stacks := self._stacks }), [])

/-- The type of per-kind handler functions
(`SyncFlowFactory.GeneratorFunction`). -/
def GeneratorFunction :=
  SyncFlowFactory → String → Resource → Option SyncFlow × List LogWarning

/-- `SyncFlowFactory.GENERATOR_MAPPING`: the static handler table from
resource-kind string to handler function. -/
def GENERATOR_MAPPING : List (String × GeneratorFunction) :=
  [ (AWS_LAMBDA_FUNCTION, SyncFlowFactory._create_lambda_flow),
    (AWS_SERVERLESS_FUNCTION, SyncFlowFactory._create_lambda_flow),
    (AWS_SERVERLESS_LAYERVERSION, SyncFlowFactory._create_layer_flow),
    (AWS_LAMBDA_LAYERVERSION, SyncFlowFactory._create_layer_flow),
    (AWS_SERVERLESS_API, SyncFlowFactory._create_rest_api_flow),
    (AWS_APIGATEWAY_RESTAPI, SyncFlowFactory._create_rest_api_flow),
    (AWS_SERVERLESS_HTTPAPI, SyncFlowFactory._create_api_flow),
    (AWS_APIGATEWAY_V2_API, SyncFlowFactory._create_api_flow),
    (AWS_SERVERLESS_STATEMACHINE, SyncFlowFactory._create_stepfunctions_flow),
    (AWS_STEPFUNCTIONS_STATEMACHINE, SyncFlowFactory._create_stepfunctions_flow) ]

/-- `SyncFlowFactory._get_generator_mapping`: returns the static class
table. -/
def SyncFlowFactory._get_generator_mapping (_self : SyncFlowFactory) :
    List (String × GeneratorFunction) :=
  GENERATOR_MAPPING

/-- Modelled from the spec: `ResourceTypeBasedFactory._get_resource_type`
(Type Registry base, not part of this core): looks the resource up in the
Resource Store and returns its kind tag, or absence when the identifier
does not resolve. -/
def SyncFlowFactory._get_resource_type (self : SyncFlowFactory)
    (resource_identifier : String) : Option String :=
  (get_resource_by_id self._stacks resource_identifier).map Resource.resourceType

/-- Modelled from the spec: `ResourceTypeBasedFactory._get_generator_function`
(Type Registry base, not part of this core): resolves the resource's kind
and looks up the handler table with exact string match; absence when
either step fails. -/
def SyncFlowFactory._get_generator_function (self : SyncFlowFactory)
    (resource_identifier : String) : Option GeneratorFunction :=
  match self._get_resource_type resource_identifier with
  | none => none
  | some resource_type =>
    List.lookup resource_type (self._get_generator_mapping)

/-- `SyncFlowFactory.create_sync_flow`: fetches the resource
(`get_resource_by_id`) and the per-kind generator
(`_get_generator_function`); returns `None` (with no warning) when
either is missing (`if not generator or not resource`), and the
generator's result otherwise (the two Python locals are inlined into the
match). -/
def SyncFlowFactory.create_sync_flow (self : SyncFlowFactory)
    (resource_identifier : String) : Option SyncFlow × List LogWarning :=
  match self._get_generator_function resource_identifier,
      get_resource_by_id self._stacks resource_identifier with
  | some g, some r => g self resource_identifier r
  | _, _ => (none, [])

/-- State-passing form of `create_sync_flow`: the method body contains no
assignment to any `self` field, so the factory after the call is the
factory before it. -/
def SyncFlowFactory.create_sync_flow_st (self : SyncFlowFactory)
    (resource_identifier : String) :
    SyncFlowFactory × Option SyncFlow × List LogWarning :=
  (self, self.create_sync_flow resource_identifier)



/-! ## Helper definitions and lemmas shared by the claim theorems -/

/-- The five-argument tuple a factory passes to every flow constructor:
the identifier display string, the build context, the deploy context,
the currently held physical-id mapping, and the stack collection. -/
def SyncFlowFactory.flowArgs (self : SyncFlowFactory)
    (resource_identifier : String) : SyncFlowArgs :=
  { resource_id := resource_identifier
    build_context := self.build_context
    deploy_context := self.deploy_context
    physical_id_mapping := self.physical_id_mapping
    _stacks := self._stacks }

/-- Membership from a successful association-list lookup. -/
theorem lookup_mem {β : Type _} {k : String} {b : β} :
    ∀ {l : List (String × β)}, List.lookup k l = some b → (k, b) ∈ l
  | [], h => by simp [List.lookup] at h
  | (k', b') :: rest, h => by
    rw [List.lookup] at h
    rcases hbeq : (k == k') with _ | _
    · simp only [hbeq] at h
      exact List.mem_cons_of_mem _ (lookup_mem h)
    · obtain rfl : k = k' := eq_of_beq hbeq
      simp only [hbeq] at h
      obtain rfl : b' = b := by injection h
      exact List.mem_cons_self _ _

/-- Every flow the function handler constructs captures the factory's
five-argument tuple. -/
theorem lambda_flow_args_eq (f : SyncFlowFactory) (rid : String) (r : Resource)
    {fl : SyncFlow} {ws : List LogWarning}
    (h : f._create_lambda_flow rid r = (some fl, ws)) :
    fl.args = f.flowArgs rid := by
  unfold SyncFlowFactory._create_lambda_flow at h
  simp only [] at h
  split at h
  · split at h <;>
    · simp only [Prod.mk.injEq, Option.some.injEq] at h
      obtain ⟨rfl, rfl⟩ := h
      rfl
  · split at h
    · simp only [Prod.mk.injEq, Option.some.injEq] at h
      obtain ⟨rfl, rfl⟩ := h
      rfl
    · simp at h

/-- Every flow the layer handler constructs captures the factory's
five-argument tuple. -/
theorem layer_flow_args_eq (f : SyncFlowFactory) (rid : String) (r : Resource)
    {fl : SyncFlow} {ws : List LogWarning}
    (h : f._create_layer_flow rid r = (some fl, ws)) :
    fl.args = f.flowArgs rid := by
  unfold SyncFlowFactory._create_layer_flow at h
  simp only [Prod.mk.injEq, Option.some.injEq] at h
  obtain ⟨rfl, rfl⟩ := h
  rfl

/-- Every flow the REST API handler constructs captures the factory's
five-argument tuple. -/
theorem rest_api_flow_args_eq (f : SyncFlowFactory) (rid : String) (r : Resource)
    {fl : SyncFlow} {ws : List LogWarning}
    (h : f._create_rest_api_flow rid r = (some fl, ws)) :
    fl.args = f.flowArgs rid := by
  unfold SyncFlowFactory._create_rest_api_flow at h
  simp only [Prod.mk.injEq, Option.some.injEq] at h
  obtain ⟨rfl, rfl⟩ := h
  rfl

/-- Every flow the HTTP API handler constructs captures the factory's
five-argument tuple. -/
theorem api_flow_args_eq (f : SyncFlowFactory) (rid : String) (r : Resource)
    {fl : SyncFlow} {ws : List LogWarning}
    (h : f._create_api_flow rid r = (some fl, ws)) :
    fl.args = f.flowArgs rid := by
  unfold SyncFlowFactory._create_api_flow at h
  simp only [Prod.mk.injEq, Option.some.injEq] at h
  obtain ⟨rfl, rfl⟩ := h
  rfl

/-- Every flow the Step Functions handler constructs captures the
factory's five-argument tuple. -/
theorem stepfunctions_flow_args_eq (f : SyncFlowFactory) (rid : String) (r : Resource)
    {fl : SyncFlow} {ws : List LogWarning}
    (h : f._create_stepfunctions_flow rid r = (some fl, ws)) :
    fl.args = f.flowArgs rid := by
  unfold SyncFlowFactory._create_stepfunctions_flow at h
  simp only [] at h
  split at h
  · simp at h
  · simp only [Prod.mk.injEq, Option.some.injEq] at h
    obtain ⟨rfl, rfl⟩ := h
    rfl

/-- Every handler registered in the table produces flows capturing the
factory's five-argument tuple. -/
theorem table_flow_args_eq (f : SyncFlowFactory) (rid : String) (r : Resource)
    {fl : SyncFlow} {ws : List LogWarning} {p : String × GeneratorFunction}
    (hp : p ∈ GENERATOR_MAPPING) (h : p.2 f rid r = (some fl, ws)) :
    fl.args = f.flowArgs rid := by
  fin_cases hp
  case _ => exact lambda_flow_args_eq f rid r h
  case _ => exact lambda_flow_args_eq f rid r h
  case _ => exact layer_flow_args_eq f rid r h
  case _ => exact layer_flow_args_eq f rid r h
  case _ => exact rest_api_flow_args_eq f rid r h
  case _ => exact rest_api_flow_args_eq f rid r h
  case _ => exact api_flow_args_eq f rid r h
  case _ => exact api_flow_args_eq f rid r h
  case _ => exact stepfunctions_flow_args_eq f rid r h
  case _ => exact stepfunctions_flow_args_eq f rid r h

/-- Every flow `create_sync_flow` returns captures the factory's
five-argument tuple. -/
theorem create_sync_flow_args_eq (f : SyncFlowFactory) (rid : String)
    {fl : SyncFlow} {ws : List LogWarning}
    (h : f.create_sync_flow rid = (some fl, ws)) :
    fl.args = f.flowArgs rid := by
  unfold SyncFlowFactory.create_sync_flow at h
  rcases hgen : f._get_generator_function rid with _ | g <;> rw [hgen] at h
  · rcases hres : get_resource_by_id f._stacks rid with _ | r <;> rw [hres] at h <;> simp at h
  · rcases hres : get_resource_by_id f._stacks rid with _ | r <;> rw [hres] at h
    · simp at h
    · unfold SyncFlowFactory._get_generator_function
        SyncFlowFactory._get_resource_type SyncFlowFactory._get_generator_mapping at hgen
      rw [hres] at hgen
      simp only [Option.map_some'] at hgen
      exact table_flow_args_eq f rid r (lookup_mem hgen) h


/-! ## Claim theorems -/

/-- C1: for a function-kind resource, `_create_lambda_flow` selects the
variant by the `PackageType` property with default "Zip": "Zip" or unset
with auto-dependency-layer mode enabled yields the auto-dependency-layer
variant, "Zip" or unset with the mode disabled yields the plain
zip-packaged variant, "Image" yields the image-packaged variant
regardless of the flag, and any other value yields absence. -/
theorem C1_lambda_flow_selects_by_package_type
    (f : SyncFlowFactory) (rid : String) (r : Resource) :
    ((r.propertiesOrEmpty.find "PackageType" = none ∨
        r.propertiesOrEmpty.find "PackageType" = some (.str "Zip")) →
      f._create_lambda_flow rid r =
        (some (if f.auto_dependency_layer then
            SyncFlow.autoDependencyLayerParent (f.flowArgs rid)
          else
            SyncFlow.zipFunction (f.flowArgs rid)), [])) ∧
    (r.propertiesOrEmpty.find "PackageType" = some (.str "Image") →
      f._create_lambda_flow rid r =
        (some (SyncFlow.imageFunction (f.flowArgs rid)), [])) ∧
    (∀ v : JsonValue, r.propertiesOrEmpty.find "PackageType" = some v →
      v.eqStr "Zip" = false → v.eqStr "Image" = false →
      f._create_lambda_flow rid r = (none, [])) := by
  refine ⟨?_, ?_, ?_⟩
  · intro hpt
    have hget : r.propertiesOrEmpty.get "PackageType" (.str ZIP) = .str "Zip" := by
      unfold Properties.find at hpt
      unfold Properties.get
      rcases hpt with h | h <;> rw [h]
      rfl
    unfold SyncFlowFactory._create_lambda_flow
    rw [hget]
    cases hadl : f.auto_dependency_layer <;>
      simp [hadl, JsonValue.eqStr, ZIP, SyncFlowFactory.flowArgs]
  · intro hpt
    have hget : r.propertiesOrEmpty.get "PackageType" (.str ZIP) = .str "Image" := by
      unfold Properties.find at hpt
      unfold Properties.get
      rw [hpt]
    unfold SyncFlowFactory._create_lambda_flow
    rw [hget]
    simp [JsonValue.eqStr, ZIP, IMAGE, SyncFlowFactory.flowArgs]
  · intro v hpt hz hi
    have hget : r.propertiesOrEmpty.get "PackageType" (.str ZIP) = v := by
      unfold Properties.find at hpt
      unfold Properties.get
      rw [hpt]
    unfold SyncFlowFactory._create_lambda_flow
    rw [hget]
    simp [ZIP, IMAGE, hz, hi]

/-- C2: for a state-machine-kind resource, a present non-empty
`DefinitionSubstitutions` map makes `create_sync_flow` return absence
together with exactly one warning naming the resource identifier, while
an absent or empty map yields a constructed state-machine flow and no
warning. -/
theorem C2_stepfunctions_definition_substitutions
    (f : SyncFlowFactory) (rid : String) (r : Resource)
    (hres : get_resource_by_id f._stacks rid = some r)
    (hkind : r.resourceType = AWS_SERVERLESS_STATEMACHINE ∨
      r.resourceType = AWS_STEPFUNCTIONS_STATEMACHINE) :
    (∀ subs : List (String × JsonValue),
      r.propertiesOrEmpty.find "DefinitionSubstitutions" = some (.obj subs) →
      subs ≠ [] →
      f.create_sync_flow rid =
        (none, [{ message := stepFunctionsWarningMessage, resource_arg := rid }])) ∧
    ((r.propertiesOrEmpty.find "DefinitionSubstitutions" = none ∨
        r.propertiesOrEmpty.find "DefinitionSubstitutions" = some (.obj [])) →
      f.create_sync_flow rid =
        (some (SyncFlow.stepFunctions (f.flowArgs rid)), [])) := by
  have hgen : f._get_generator_function rid =
      some SyncFlowFactory._create_stepfunctions_flow := by
    unfold SyncFlowFactory._get_generator_function SyncFlowFactory._get_resource_type
      SyncFlowFactory._get_generator_mapping
    rw [hres]
    simp only [Option.map_some']
    rcases hkind with hk | hk <;> rw [hk] <;> rfl
  have hcall : f.create_sync_flow rid = f._create_stepfunctions_flow rid r := by
    unfold SyncFlowFactory.create_sync_flow
    rw [hgen, hres]
  refine ⟨?_, ?_⟩
  · intro subs hsubs hne
    have hget : r.propertiesOrEmpty.get "DefinitionSubstitutions" .null = .obj subs := by
      unfold Properties.find at hsubs
      unfold Properties.get
      rw [hsubs]
    rw [hcall]
    unfold SyncFlowFactory._create_stepfunctions_flow
    rw [hget]
    have htruthy : (JsonValue.obj subs).truthy = true := by
      unfold JsonValue.truthy
      simp [List.isEmpty_iff, hne]
    simp [htruthy]
  · intro hsubs
    rw [hcall]
    unfold SyncFlowFactory._create_stepfunctions_flow
    unfold Properties.find at hsubs
    unfold Properties.get
    rcases hsubs with h | h <;> rw [h] <;>
      simp [JsonValue.truthy, SyncFlowFactory.flowArgs]

/-- C3: `create_sync_flow` returns absence (and, being a total function,
never raises) when the identifier does not resolve in the Resource
Store, when the resolved resource kind has no handler in the table, and
it returns exactly the handler verdict when the handler itself rules the
resource ineligible. -/
theorem C3_absence_for_unresolved_unsupported_ineligible
    (f : SyncFlowFactory) (rid : String) :
    (get_resource_by_id f._stacks rid = none → f.create_sync_flow rid = (none, [])) ∧
    (∀ r : Resource, get_resource_by_id f._stacks rid = some r →
      List.lookup r.resourceType GENERATOR_MAPPING = none →
      f.create_sync_flow rid = (none, [])) ∧
    (∀ (r : Resource) (g : GeneratorFunction) (ws : List LogWarning),
      get_resource_by_id f._stacks rid = some r →
      f._get_generator_function rid = some g →
      g f rid r = (none, ws) →
      f.create_sync_flow rid = (none, ws)) := by
  refine ⟨?_, ?_, ?_⟩
  · intro hres
    have hgen : f._get_generator_function rid = none := by
      unfold SyncFlowFactory._get_generator_function SyncFlowFactory._get_resource_type
      rw [hres]
      rfl
    unfold SyncFlowFactory.create_sync_flow
    rw [hgen, hres]
  · intro r hres hlook
    have hgen : f._get_generator_function rid = none := by
      unfold SyncFlowFactory._get_generator_function SyncFlowFactory._get_resource_type
        SyncFlowFactory._get_generator_mapping
      rw [hres]
      simp only [Option.map_some']
      exact hlook
    unfold SyncFlowFactory.create_sync_flow
    rw [hgen, hres]
  · intro r g ws hres hgen hcall
    unfold SyncFlowFactory.create_sync_flow
    rw [hgen, hres]
    exact hcall


/-- C4: `load_physical_id_mapping` replaces the held mapping wholesale
with the mapping fetched from the remote lookup (and repeating the call
fully replaces prior state); a freshly initialized factory holds the
empty mapping; units constructed after a completed call capture the
newly loaded mapping, and units constructed from a fresh factory capture
the empty mapping. -/
theorem C4_load_replaces_mapping_wholesale
    (b : BuildContext) (dc : DeployContext) (sc : List Stack) (adl : Bool)
    (f : SyncFlowFactory) (lookup : RemoteLookup) (rid : String) :
    (SyncFlowFactory.init b dc sc adl).physical_id_mapping = [] ∧
    (f.load_physical_id_mapping lookup).physical_id_mapping =
      lookup f.region_name_arg f.deploy_context.stack_name ∧
    (f.load_physical_id_mapping lookup).load_physical_id_mapping lookup =
      f.load_physical_id_mapping lookup ∧
    (∀ (fl : SyncFlow) (ws : List LogWarning),
      (f.load_physical_id_mapping lookup).create_sync_flow rid = (some fl, ws) →
      fl.args.physical_id_mapping =
        lookup f.region_name_arg f.deploy_context.stack_name) ∧
    (∀ (fl : SyncFlow) (ws : List LogWarning),
      (SyncFlowFactory.init b dc sc adl).create_sync_flow rid = (some fl, ws) →
      fl.args.physical_id_mapping = []) := by
  and_intros
  · rfl
  · rfl
  · rfl
  · intro fl ws h
    rw [create_sync_flow_args_eq _ rid h]
    rfl
  · intro fl ws h
    rw [create_sync_flow_args_eq _ rid h]
    rfl

/-- C5: for each of the five resource families, the primary and expanded
declaration-form kind strings are registered to the same handler
function, and that handler gives equal results on two resources that
differ only in which of the two kind strings they carry. -/
theorem C5_dual_forms_share_handler :
    (∃ g : GeneratorFunction,
      List.lookup AWS_LAMBDA_FUNCTION GENERATOR_MAPPING = some g ∧
      List.lookup AWS_SERVERLESS_FUNCTION GENERATOR_MAPPING = some g ∧
      ∀ (f : SyncFlowFactory) (rid : String) (props : Option Properties),
        g f rid ⟨AWS_LAMBDA_FUNCTION, props⟩ = g f rid ⟨AWS_SERVERLESS_FUNCTION, props⟩) ∧
    (∃ g : GeneratorFunction,
      List.lookup AWS_SERVERLESS_LAYERVERSION GENERATOR_MAPPING = some g ∧
      List.lookup AWS_LAMBDA_LAYERVERSION GENERATOR_MAPPING = some g ∧
      ∀ (f : SyncFlowFactory) (rid : String) (props : Option Properties),
        g f rid ⟨AWS_SERVERLESS_LAYERVERSION, props⟩ =
          g f rid ⟨AWS_LAMBDA_LAYERVERSION, props⟩) ∧
    (∃ g : GeneratorFunction,
      List.lookup AWS_SERVERLESS_API GENERATOR_MAPPING = some g ∧
      List.lookup AWS_APIGATEWAY_RESTAPI GENERATOR_MAPPING = some g ∧
      ∀ (f : SyncFlowFactory) (rid : String) (props : Option Properties),
        g f rid ⟨AWS_SERVERLESS_API, props⟩ = g f rid ⟨AWS_APIGATEWAY_RESTAPI, props⟩) ∧
    (∃ g : GeneratorFunction,
      List.lookup AWS_SERVERLESS_HTTPAPI GENERATOR_MAPPING = some g ∧
      List.lookup AWS_APIGATEWAY_V2_API GENERATOR_MAPPING = some g ∧
      ∀ (f : SyncFlowFactory) (rid : String) (props : Option Properties),
        g f rid ⟨AWS_SERVERLESS_HTTPAPI, props⟩ =
          g f rid ⟨AWS_APIGATEWAY_V2_API, props⟩) ∧
    (∃ g : GeneratorFunction,
      List.lookup AWS_SERVERLESS_STATEMACHINE GENERATOR_MAPPING = some g ∧
      List.lookup AWS_STEPFUNCTIONS_STATEMACHINE GENERATOR_MAPPING = some g ∧
      ∀ (f : SyncFlowFactory) (rid : String) (props : Option Properties),
        g f rid ⟨AWS_SERVERLESS_STATEMACHINE, props⟩ =
          g f rid ⟨AWS_STEPFUNCTIONS_STATEMACHINE, props⟩) :=
  ⟨⟨SyncFlowFactory._create_lambda_flow, rfl, rfl, fun _ _ _ => rfl⟩,
   ⟨SyncFlowFactory._create_layer_flow, rfl, rfl, fun _ _ _ => rfl⟩,
   ⟨SyncFlowFactory._create_rest_api_flow, rfl, rfl, fun _ _ _ => rfl⟩,
   ⟨SyncFlowFactory._create_api_flow, rfl, rfl, fun _ _ _ => rfl⟩,
   ⟨SyncFlowFactory._create_stepfunctions_flow, rfl, rfl, fun _ _ _ => rfl⟩⟩

/-- C6: every flow `create_sync_flow` constructs receives exactly the
five arguments in the same roles: the identifier display string, the
build configuration, the deploy configuration, the currently held
physical-id mapping, and the stack collection. -/
theorem C6_uniform_five_argument_construction
    (f : SyncFlowFactory) (rid : String) (fl : SyncFlow) (ws : List LogWarning)
    (h : f.create_sync_flow rid = (some fl, ws)) :
    fl.args =
      { resource_id := rid
        build_context := f.build_context
        deploy_context := f.deploy_context
        physical_id_mapping := f.physical_id_mapping
        _stacks := f._stacks } :=
  create_sync_flow_args_eq f rid h

/-- C7: `create_sync_flow` leaves the factory state untouched: after a
call (in the state-passing reading of the method) the physical-id
mapping, the stack collection, the build and deploy configuration
references, and the auto-dependency-layer flag all equal their values
before the call. -/
theorem C7_create_sync_flow_preserves_state
    (f : SyncFlowFactory) (rid : String) :
    (f.create_sync_flow_st rid).1.physical_id_mapping = f.physical_id_mapping ∧
    (f.create_sync_flow_st rid).1._stacks = f._stacks ∧
    (f.create_sync_flow_st rid).1.build_context = f.build_context ∧
    (f.create_sync_flow_st rid).1.deploy_context = f.deploy_context ∧
    (f.create_sync_flow_st rid).1.auto_dependency_layer = f.auto_dependency_layer := by
  and_intros <;> rfl

/-- C8: the handler table holds exactly the ten supported kind strings,
with no duplicate key (hence at most one handler per kind string), every
dispatch call consults the same static table, and a successful lookup is
an exact match of a key of the table. -/
theorem C8_handler_table_static_and_exact
    (f : SyncFlowFactory) :
    GENERATOR_MAPPING.map Prod.fst =
      [AWS_LAMBDA_FUNCTION, AWS_SERVERLESS_FUNCTION, AWS_SERVERLESS_LAYERVERSION,
       AWS_LAMBDA_LAYERVERSION, AWS_SERVERLESS_API, AWS_APIGATEWAY_RESTAPI,
       AWS_SERVERLESS_HTTPAPI, AWS_APIGATEWAY_V2_API, AWS_SERVERLESS_STATEMACHINE,
       AWS_STEPFUNCTIONS_STATEMACHINE] ∧
    (GENERATOR_MAPPING.map Prod.fst).Nodup ∧
    f._get_generator_mapping = GENERATOR_MAPPING ∧
    (∀ (k : String) (g : GeneratorFunction),
      List.lookup k GENERATOR_MAPPING = some g →
      k ∈ GENERATOR_MAPPING.map Prod.fst) := by
  refine ⟨rfl, ?_, rfl, ?_⟩
  · decide
  · intro k g h
    exact List.mem_map_of_mem Prod.fst (lookup_mem h)

/-- C9: a resource declaration with no property bag at all behaves as if
its properties were empty: the function handler yields the zip-packaged
variant (or its auto-dependency-layer counterpart when the mode is
enabled) and the state-machine handler yields a flow with no warning. -/
theorem C9_missing_property_bag_is_empty
    (f : SyncFlowFactory) (rid : String) (tf ts : String) :
    f._create_lambda_flow rid ⟨tf, none⟩ =
      (some (if f.auto_dependency_layer then
          SyncFlow.autoDependencyLayerParent (f.flowArgs rid)
        else
          SyncFlow.zipFunction (f.flowArgs rid)), []) ∧
    f._create_stepfunctions_flow rid ⟨ts, none⟩ =
      (some (SyncFlow.stepFunctions (f.flowArgs rid)), []) := by
  constructor
  · cases hadl : f.auto_dependency_layer <;>
      simp [SyncFlowFactory._create_lambda_flow, Resource.propertiesOrEmpty,
        Properties.get, JsonValue.eqStr, hadl, SyncFlowFactory.flowArgs]
  · rfl

/-- C10: a flow constructed by `create_sync_flow` captures the mapping
the factory holds at construction time: after a later
`load_physical_id_mapping` the factory holds the freshly fetched
mapping, while the earlier flow still carries the mapping from before
the call. -/
theorem C10_flows_capture_mapping_at_construction
    (f : SyncFlowFactory) (lookup : RemoteLookup) (rid rid2 : String)
    (fl : SyncFlow) (ws : List LogWarning)
    (h : f.create_sync_flow rid = (some fl, ws)) :
    fl.args.physical_id_mapping = f.physical_id_mapping ∧
    (f.load_physical_id_mapping lookup).physical_id_mapping =
      lookup f.region_name_arg f.deploy_context.stack_name ∧
    (∀ (fl2 : SyncFlow) (ws2 : List LogWarning),
      (f.load_physical_id_mapping lookup).create_sync_flow rid2 = (some fl2, ws2) →
      fl2.args.physical_id_mapping =
        lookup f.region_name_arg f.deploy_context.stack_name) := by
  refine ⟨?_, rfl, ?_⟩
  · rw [create_sync_flow_args_eq f rid h]
    rfl
  · intro fl2 ws2 h2
    rw [create_sync_flow_args_eq _ rid2 h2]
    rfl


/-! ## Concrete fixtures for the witness theorems -/

/-- A concrete build context. -/
def sampleBuild : BuildContext := ⟨0⟩

/-- A concrete deploy context. -/
def sampleDeploy : DeployContext := ⟨some "us-east-1", "sample-app"⟩

/-- A serverless function resource with `PackageType = "Zip"`. -/
def zipFunctionResource : Resource :=
  ⟨AWS_SERVERLESS_FUNCTION, some [("PackageType", .str "Zip")]⟩

/-- A serverless function resource with `PackageType = "Image"`. -/
def imageFunctionResource : Resource :=
  ⟨AWS_SERVERLESS_FUNCTION, some [("PackageType", .str "Image")]⟩

/-- A serverless function resource with an unrecognized `PackageType`. -/
def bananaFunctionResource : Resource :=
  ⟨AWS_SERVERLESS_FUNCTION, some [("PackageType", .str "Banana")]⟩

/-- A state machine resource carrying a non-empty
`DefinitionSubstitutions` map. -/
def substSMResource : Resource :=
  ⟨AWS_SERVERLESS_STATEMACHINE, some [("DefinitionSubstitutions", .obj [("Key", .str "Val")])]⟩

/-- A state machine resource with an empty property bag. -/
def plainSMResource : Resource := ⟨AWS_STEPFUNCTIONS_STATEMACHINE, some []⟩

/-- A resource of a kind with no registered handler. -/
def bucketResource : Resource := ⟨"AWS::S3::Bucket", none⟩

/-- A single-stack resource store with one resource of each interesting
shape. -/
def sampleStacks : List Stack :=
  [⟨[("HelloFunction", imageFunctionResource),
     ("BadFn", bananaFunctionResource),
     ("MyLayer", ⟨AWS_LAMBDA_LAYERVERSION, none⟩),
     ("MySM", substSMResource),
     ("PlainSM", plainSMResource),
     ("MyBucket", bucketResource)]⟩]

/-- A freshly initialized factory over the sample store, with
auto-dependency-layer mode disabled. -/
def sampleFactory : SyncFlowFactory :=
  SyncFlowFactory.init sampleBuild sampleDeploy sampleStacks false

/-- A concrete remote lookup result. -/
def sampleLookup : RemoteLookup := fun _ _ => [("HelloFunction", "phys-123")]

/-- The five arguments the layer flow receives from the fresh sample
factory. -/
def layerArgsInit : SyncFlowArgs :=
  { resource_id := "MyLayer"
    build_context := sampleBuild
    deploy_context := sampleDeploy
    physical_id_mapping := []
    _stacks := sampleStacks }

/-- The five arguments the layer flow receives after the sample lookup
has been loaded. -/
def layerArgsLoaded : SyncFlowArgs :=
  { layerArgsInit with physical_id_mapping := [("HelloFunction", "phys-123")] }

/-! ## Witness theorems -/

/-- Witness for C1: evaluating the function handler at concrete "Zip",
"Image" and unrecognized package types. -/
theorem C1_witness :
    sampleFactory._create_lambda_flow "HelloFunction" zipFunctionResource =
      (some (.zipFunction (sampleFactory.flowArgs "HelloFunction")), []) ∧
    sampleFactory._create_lambda_flow "HelloFunction" imageFunctionResource =
      (some (.imageFunction (sampleFactory.flowArgs "HelloFunction")), []) ∧
    sampleFactory._create_lambda_flow "HelloFunction" bananaFunctionResource = (none, []) :=
  ⟨(C1_lambda_flow_selects_by_package_type sampleFactory "HelloFunction"
      zipFunctionResource).1 (Or.inr rfl),
   (C1_lambda_flow_selects_by_package_type sampleFactory "HelloFunction"
      imageFunctionResource).2.1 rfl,
   (C1_lambda_flow_selects_by_package_type sampleFactory "HelloFunction"
      bananaFunctionResource).2.2 (.str "Banana") rfl rfl rfl⟩

/-- Witness for C2: a state machine with a non-empty substitutions map is
skipped with one warning naming it; one with an empty property bag
yields a flow and no warning. -/
theorem C2_witness :
    sampleFactory.create_sync_flow "MySM" =
      (none, [{ message := stepFunctionsWarningMessage, resource_arg := "MySM" }]) ∧
    sampleFactory.create_sync_flow "PlainSM" =
      (some (.stepFunctions (sampleFactory.flowArgs "PlainSM")), []) :=
  ⟨(C2_stepfunctions_definition_substitutions sampleFactory "MySM" substSMResource
      rfl (Or.inl rfl)).1 [("Key", .str "Val")] rfl (by simp),
   (C2_stepfunctions_definition_substitutions sampleFactory "PlainSM" plainSMResource
      rfl (Or.inr rfl)).2 (Or.inl rfl)⟩

/-- Witness for C3: an unknown identifier, an unsupported kind, and a
handler-skipped function resource all give absence. -/
theorem C3_witness :
    sampleFactory.create_sync_flow "Missing" = (none, []) ∧
    sampleFactory.create_sync_flow "MyBucket" = (none, []) ∧
    sampleFactory.create_sync_flow "BadFn" = (none, []) :=
  ⟨(C3_absence_for_unresolved_unsupported_ineligible sampleFactory "Missing").1 rfl,
   (C3_absence_for_unresolved_unsupported_ineligible sampleFactory "MyBucket").2.1
      bucketResource rfl rfl,
   (C3_absence_for_unresolved_unsupported_ineligible sampleFactory "BadFn").2.2
      bananaFunctionResource SyncFlowFactory._create_lambda_flow [] rfl rfl rfl⟩

/-- Witness for C4: after loading the sample mapping the factory holds
it, a layer flow constructed afterwards captures it, and a layer flow
constructed from the fresh factory captures the empty mapping. -/
theorem C4_witness :
    (SyncFlow.layer layerArgsLoaded).args.physical_id_mapping =
      [("HelloFunction", "phys-123")] ∧
    (SyncFlow.layer layerArgsInit).args.physical_id_mapping = [] :=
  ⟨(C4_load_replaces_mapping_wholesale sampleBuild sampleDeploy sampleStacks false
      sampleFactory sampleLookup "MyLayer").2.2.2.1 (.layer layerArgsLoaded) [] rfl,
   (C4_load_replaces_mapping_wholesale sampleBuild sampleDeploy sampleStacks false
      sampleFactory sampleLookup "MyLayer").2.2.2.2 (.layer layerArgsInit) [] rfl⟩

/-- Witness for C6: the layer flow constructed for the sample layer
resource captures exactly the factory's five arguments. -/
theorem C6_witness :
    (SyncFlow.layer layerArgsInit).args =
      { resource_id := "MyLayer"
        build_context := sampleFactory.build_context
        deploy_context := sampleFactory.deploy_context
        physical_id_mapping := sampleFactory.physical_id_mapping
        _stacks := sampleFactory._stacks } :=
  C6_uniform_five_argument_construction sampleFactory "MyLayer"
    (.layer layerArgsInit) [] rfl

/-- Witness for C8: a successful lookup key is a key of the table. -/
theorem C8_witness :
    AWS_LAMBDA_FUNCTION ∈ GENERATOR_MAPPING.map Prod.fst :=
  (C8_handler_table_static_and_exact sampleFactory).2.2.2 AWS_LAMBDA_FUNCTION
    SyncFlowFactory._create_lambda_flow rfl

/-- Witness for C10: the layer flow built before the load still carries
the factory's (empty) pre-load mapping, while one built after carries
the loaded mapping. -/
theorem C10_witness :
    (SyncFlow.layer layerArgsInit).args.physical_id_mapping =
      sampleFactory.physical_id_mapping ∧
    (SyncFlow.layer layerArgsLoaded).args.physical_id_mapping =
      [("HelloFunction", "phys-123")] :=
  ⟨(C10_flows_capture_mapping_at_construction sampleFactory sampleLookup
      "MyLayer" "MyLayer" (.layer layerArgsInit) [] rfl).1,
   (C10_flows_capture_mapping_at_construction sampleFactory sampleLookup
      "MyLayer" "MyLayer" (.layer layerArgsInit) [] rfl).2.2
      (.layer layerArgsLoaded) [] rfl⟩

end SamSync
